import Mathlib

/-!
Verification development for the Dress-Try-On application core.

The definitions below are a shallow embedding of the TypeScript source:
`generateOutfitCombinations` and the `handleGenerate` / `handleStyleUpload`
handlers from `src/App.tsx`, and `parseGeminiError`, `virtualTryOn`,
`editImage`, `generateVideo` from `src/services/geminiService.ts`.
External service calls are modelled by explicit outcome oracles; JavaScript
exceptions become `Except` values; `await`-sequenced effects become explicit
state threading and event traces.
-/

namespace DressTryOn

/-- Boolean test that `pat` occurs as a contiguous sublist of the second list. -/
def listInfixOf [BEq α] (pat : List α) : List α → Bool
  | [] => pat.isEmpty
  | a :: as => pat.isPrefixOf (a :: as) || listInfixOf pat as

/-- JavaScript `String.prototype.includes`: substring containment. -/
def containsSubstr (s pat : String) : Bool :=
  listInfixOf pat.data s.data

/-- JavaScript `String.prototype.toLowerCase`, as a character-wise lowering
(all messages involved are ASCII). -/
def jsToLower (s : String) : String :=
  ⟨s.data.map Char.toLower⟩

/-- JavaScript `String.prototype.trim`: strip leading and trailing
whitespace. -/
def jsTrim (s : String) : String :=
  ⟨((s.data.dropWhile Char.isWhitespace).reverse.dropWhile Char.isWhitespace).reverse⟩

/-- `UploadedImage` from `src/types` as used by `App.tsx`. -/
structure UploadedImage where
  base64 : String
  mimeType : String
  url : String
  name : String
  deriving Repr, DecidableEq

/-- `FilterItem`: a catalogue item (id, display name, owned image). -/
structure FilterItem where
  id : String
  name : String
  image : UploadedImage
  deriving Repr, DecidableEq

/-- `TryOnItem`: a `FilterItem` tagged with the category it was selected from. -/
structure TryOnItem where
  id : String
  name : String
  image : UploadedImage
  category : String
  deriving Repr, DecidableEq

/-- The per-category selection record (`SelectedItems` in `App.tsx`); the six
category keys of `initialSelected`. -/
structure SelectedItems where
  outfits : List FilterItem
  tops : List FilterItem
  bottoms : List FilterItem
  footwear : List FilterItem
  headwear : List FilterItem
  accessories : List FilterItem
  deriving Repr, DecidableEq

/-- The variadic `cartesian` helper inside `generateOutfitCombinations`
(`App.tsx` lines 20-24): empty input arrays are filtered out first; with no
non-empty arrays the product is the single empty tuple. -/
def cartesian (arrays : List (List α)) : List (List α) :=
  let nonEmptyArrays := arrays.filter (fun arr => arr.length > 0)
  if nonEmptyArrays.length = 0 then [[]]
  else nonEmptyArrays.foldl (fun acc val => acc.flatMap (fun d => val.map (fun e => d ++ [e]))) [[]]

/-- `toTryOnItem` (`App.tsx` line 25): spread of the item plus a category tag. -/
def toTryOnItem (item : FilterItem) (category : String) : TryOnItem :=
  { id := item.id, name := item.name, image := item.image, category := category }

/-- The `baseItems` computation of `generateOutfitCombinations`
(`App.tsx` lines 26-33): singleton combinations per outfit when `outfits` is
non-empty, otherwise `cartesian(tops, bottoms)`. -/
def baseItemsOf (s : SelectedItems) : List (List TryOnItem) :=
  if s.outfits.length > 0 then
    s.outfits.map (fun item => [toTryOnItem item "outfits"])
  else
    cartesian [s.tops.map (fun item => toTryOnItem item "tops"),
               s.bottoms.map (fun item => toTryOnItem item "bottoms")]

/-- The `accessoryCombos` computation (`App.tsx` lines 34-37). -/
def accessoryCombosOf (s : SelectedItems) : List (List TryOnItem) :=
  cartesian [s.footwear.map (fun item => toTryOnItem item "footwear"),
             s.headwear.map (fun item => toTryOnItem item "headwear"),
             s.accessories.map (fun item => toTryOnItem item "accessories")]

/-- `generateOutfitCombinations` (`App.tsx` lines 17-47).  The unused
`selectedCats` binding of the source is dropped; the two `forEach` pushes are
a `flatMap`. -/
def generateOutfitCombinations (s : SelectedItems) : List (List TryOnItem) :=
  let baseItems := baseItemsOf s
  let accessoryCombos := accessoryCombosOf s
  if baseItems.length = 0 then
    accessoryCombos.filter (fun combo => combo.length > 0)
  else
    baseItems.flatMap (fun base => accessoryCombos.map (fun combo => base ++ combo))

/-! ### Error normalizer (`src/services/geminiService.ts`, `parseGeminiError`) -/

def cfgErrorMsg : String :=
  "The AI service is not configured correctly. Please contact support."

def credErrorMsg : String :=
  "API Key not found or invalid. Please select a valid API key and try again."

def quotaErrorMsg : String :=
  "The AI service is currently experiencing high demand. Please try again in a few minutes."

def unavailableErrorMsg : String :=
  "The AI styling service is temporarily unavailable. Please try again later."

def blockedErrorMsg : String :=
  "The request was blocked by the AI. This can happen if an image is unsuitable for processing. Please try a different photo."

def unknownErrorMsg : String :=
  "An unexpected error occurred with the AI service. Please try again."

/-- A thrown JavaScript value: either an `Error` carrying a message, or any
other value (the `error instanceof Error` test fails on the latter). -/
inductive JsError where
  | error (message : String)
  | nonError
  deriving Repr, DecidableEq

/-- `parseGeminiError` (`geminiService.ts` lines 10-30): a case-insensitive
substring scan over the raw message, checked in source order. -/
def parseGeminiError (e : JsError) : String :=
  match e with
  | .error msg =>
    let message := jsToLower msg
    if containsSubstr message "api key not valid" then cfgErrorMsg
    else if containsSubstr message "requested entity was not found" then credErrorMsg
    else if containsSubstr message "quota" then quotaErrorMsg
    else if containsSubstr message "503" || containsSubstr message "unavailable" then unavailableErrorMsg
    else if containsSubstr message "invalid argument" || containsSubstr message "request was blocked" then blockedErrorMsg
    else unknownErrorMsg
  | .nonError => unknownErrorMsg

/-- The rule list of the spec's ErrorNormalizer (section 4.5), in order:
each rule is the set of trigger substrings together with the message of the
corresponding category. -/
def errorRules : List (List String × String) :=
  [(["api key not valid"], cfgErrorMsg),
   (["requested entity was not found"], credErrorMsg),
   (["quota"], quotaErrorMsg),
   (["503", "unavailable"], unavailableErrorMsg),
   (["invalid argument", "request was blocked"], blockedErrorMsg)]

/-- Ordered first-match scan over a rule list, falling through to the
UnknownError message: the spec's description of the normalizer. -/
def firstMatchScan : List (List String × String) → String → String
  | [], _ => unknownErrorMsg
  | (pats, res) :: rest, m =>
    if pats.any (fun p => containsSubstr m p) then res else firstMatchScan rest m

/-- The normalizer as the spec words it: lower-case the message, then take the
first matching rule of `errorRules`; a non-`Error` value is the fallback. -/
def normalizeSpec (e : JsError) : String :=
  match e with
  | .error msg => firstMatchScan errorRules (jsToLower msg)
  | .nonError => unknownErrorMsg

/-! ### Generation service response model and `virtualTryOn` / `editImage` -/

/-- One output part of a generation response: optional inline image data,
optional text. -/
structure ResponsePart where
  inlineData : Option String
  text : Option String
  deriving Repr, DecidableEq

structure ResponseContent where
  parts : List ResponsePart
  deriving Repr, DecidableEq

structure ResponseCandidate where
  content : Option ResponseContent
  deriving Repr, DecidableEq

structure GenerateContentResponse where
  candidates : Option (List ResponseCandidate)
  deriving Repr, DecidableEq

/-- `response.candidates?.[0]?.content?.parts || []`. -/
def responseParts (r : GenerateContentResponse) : List ResponsePart :=
  match r.candidates with
  | some (c :: _) =>
    match c.content with
    | some ct => ct.parts
    | none => []
  | _ => []

/-- The `for (const part of ...) if (part.inlineData) return part.inlineData.data`
scan of `virtualTryOn` / `editImage`. -/
def extractInlineImage : List ResponsePart → Option String
  | [] => none
  | p :: rest =>
    match p.inlineData with
    | some d => some d
    | none => extractInlineImage rest

def noImageTryOnMsg : String :=
  "The AI model did not return an image. This can happen if the input is unclear or violates safety policies. Please try a different photo."

def noImageEditMsg : String :=
  "The AI model did not return an image. Please try a different prompt or image."

/-- Outcome of one `ai.models.generateContent` call: either a response object,
or a thrown value. -/
inductive ServiceOutcome where
  | response (r : GenerateContentResponse)
  | thrown (e : JsError)
  deriving Repr, DecidableEq

/-- `virtualTryOn` (`geminiService.ts` lines 87-137) from the service call
outcome on: return the first inline image part; if no part carries an image,
throw the no-image `Error`, which the function's own `catch` converts through
`parseGeminiError` and rethrows, as it does any thrown value. -/
def virtualTryOn (o : ServiceOutcome) : Except String String :=
  match o with
  | .response r =>
    match extractInlineImage (responseParts r) with
    | some d => .ok d
    | none => .error (parseGeminiError (.error noImageTryOnMsg))
  | .thrown e => .error (parseGeminiError e)

/-- `editImage` (`geminiService.ts` lines 142-175): same shape as
`virtualTryOn` with its own no-image message. -/
def editImage (o : ServiceOutcome) : Except String String :=
  match o with
  | .response r =>
    match extractInlineImage (responseParts r) with
    | some d => .ok d
    | none => .error (parseGeminiError (.error noImageEditMsg))
  | .thrown e => .error (parseGeminiError e)

/-! ### `handleGenerate`, try-on branch (`App.tsx` lines 186-218, 257-263) -/

/-- The pieces of `App` component state that the try-on branch reads or
writes. -/
structure AppState where
  workspaceItems : List UploadedImage
  selectedImage : Option UploadedImage
  generatedImages : List String
  error : Option String
  deriving Repr, DecidableEq

def noItemsErrorMsg : String := "Please select at least one clothing item."

def placeholderErrorMsg : String :=
  "A selected style is a placeholder. Please upload real clothing items."

/-- The render loop of the try-on branch (`App.tsx` lines 192-199): call the
service once per combination, in order; a truthy result is pushed and the
buffer republished; a thrown error leaves the loop at once.  `svcE i` is the
outcome of the `await virtualTryOn` call for the `i`-th combination; the
returned triple is (final result buffer, the escaping error if any, the index
one past the last call made). -/
def tryOnLoop (svcE : Nat → Except String String) : Nat → Nat → List String → List String × Option String × Nat
  | i, 0, results => (results, none, i)
  | i, n + 1, results =>
    match svcE i with
    | .ok result =>
      tryOnLoop svcE (i + 1) n (if result = "" then results else results ++ [result])
    | .error e => (results, some e, i + 1)

/-- One workspace entry of the materialization loop (`App.tsx` lines 204-211)
for the result at 0-based `index`; `createObjectURL ∘ base64ToBlob` is
abstracted by `mkUrl`. -/
def newWorkspaceEntry (mkUrl : String → String) (selName : String) (index : Nat) (result : String) : UploadedImage :=
  { base64 := result, mimeType := "image/png", url := mkUrl result,
    name := "try-on-" ++ toString (index + 1) ++ "-" ++ selName }

/-- The materialization loop (`App.tsx` lines 202-213), carrying the
`results.entries()` index: one workspace entry per result, in result order. -/
def materializeFrom (mkUrl : String → String) (selName : String) : Nat → List String → List UploadedImage
  | _, [] => []
  | index, r :: rest =>
    newWorkspaceEntry mkUrl selName index r :: materializeFrom mkUrl selName (index + 1) rest

/-- The materialization loop started at index 0. -/
def materialize (mkUrl : String → String) (selName : String) (results : List String) : List UploadedImage :=
  materializeFrom mkUrl selName 0 results

/-- The try-on branch of `handleGenerate` (`App.tsx` lines 186-218 plus the
`catch` at 257-258), for a non-null selected image `selImg`.  `svc i` is the
outcome of the `i`-th service call; the second component of the result is the
number of render calls made.  On a loop error the code after the loop is
skipped (the exception reaches the `catch`); on success the fresh entries are
reversed in place, prepended to the workspace, and the first element of the
reversed array becomes the selected image. -/
def handleGenerateTryOn (svc : Nat → ServiceOutcome) (mkUrl : String → String)
    (selImg : UploadedImage) (sel : SelectedItems) (st : AppState) : AppState × Nat :=
  let st0 : AppState := { st with generatedImages := [], error := none }
  let outfitsToTry := generateOutfitCombinations sel
  if outfitsToTry.length = 0 then
    ({ st0 with error := some noItemsErrorMsg }, 0)
  else if outfitsToTry.flatten.any (fun item => item.image.base64 = "") then
    ({ st0 with error := some placeholderErrorMsg }, 0)
  else
    match tryOnLoop (fun i => virtualTryOn (svc i)) 0 outfitsToTry.length [] with
    | (results, some e, calls) =>
      ({ st0 with generatedImages := results, error := some e }, calls)
    | (results, none, calls) =>
      if results.length > 0 then
        let newItems := materialize mkUrl selImg.name results
        let revItems := newItems.reverse
        ({ st0 with
            generatedImages := results,
            workspaceItems := revItems ++ st0.workspaceItems,
            selectedImage :=
              match revItems with
              | h :: _ => some h
              | [] => st0.selectedImage }, calls)
      else
        ({ st0 with generatedImages := results }, calls)

/-! ### `handleGenerate`, video branch (`App.tsx` lines 238-255) -/

/-- The pieces of `App` state the video branch touches, plus two trace flags
recording whether `window.aistudio.openSelectKey` and `generateVideo` were
invoked during the branch. -/
structure VideoState where
  isApiKeySelected : Bool
  error : Option String
  generatedVideoUrl : Option String
  openSelectKeyCalled : Bool
  videoCallMade : Bool
  deriving Repr, DecidableEq

def videoPromptEmptyMsg : String := "Please enter a video description."

def keySelectedRetryMsg : String :=
  "API Key selected. Please click 'Generate Video' again to proceed."

/-- The video branch of `handleGenerate` (`App.tsx` lines 238-255 plus the
`catch` at 257-258).  `hasKey` is the value of
`await window.aistudio.hasSelectedApiKey()`; `videoResult` the outcome of the
`generateVideo` call when one is made. -/
def handleGenerateVideoBranch (videoPrompt : String) (hasKey : Bool)
    (videoResult : Except String String) (st : VideoState) : VideoState :=
  let st0 : VideoState := { st with
    error := none, generatedVideoUrl := none,
    openSelectKeyCalled := false, videoCallMade := false }
  if jsTrim videoPrompt = "" then { st0 with error := some videoPromptEmptyMsg }
  else if !hasKey then
    { st0 with
        openSelectKeyCalled := true,
        isApiKeySelected := true,
        error := some keySelectedRetryMsg }
  else
    match videoResult with
    | .ok url => { st0 with videoCallMade := true, generatedVideoUrl := some url }
    | .error m =>
      let st1 := if containsSubstr m "API Key not found" then
        { st0 with isApiKeySelected := false } else st0
      { st1 with videoCallMade := true, error := some m }

/-! ### Classification queue (`App.tsx`, `handleStyleUpload`, lines 96-116) -/

/-- Observable events of the `handleStyleUpload` loop, in the order the
`await` points sequence them: a classification request starting for file `i`,
its terminal state, and the `await delay(4500)` cooldown. -/
inductive QEvent where
  | startClassify (i : Nat)
  | doneTask (i : Nat)
  | failedTask (i : Nat) (msg : String)
  | cooldown (ms : Nat)
  deriving Repr, DecidableEq

/-- A `ClassifyingItem` task; the `Date.now()`-based `tempId` of the source is
modelled by the file's submission index, which is equally unique per batch. -/
structure ClassifyingItem where
  id : Nat
  name : String
  error : Option String
  deriving Repr, DecidableEq

/-- One iteration per file of `handleStyleUpload`: add the pending task, run
read+classify (its combined outcome is `o`: a category on success, the caught
error message on failure), then on success remove the task (`filter`) and on
failure attach the message (`map`); after either, await the cooldown and move
to the next file.  Returns the event trace and the final task list. -/
def styleUploadStep : Nat → List (String × Except String String) → List ClassifyingItem → List QEvent × List ClassifyingItem
  | _, [], items => ([], items)
  | i, (nm, o) :: rest, items =>
    let items1 := items ++ [{ id := i, name := nm, error := none }]
    match o with
    | .ok _cat =>
      let items2 := items1.filter (fun t => t.id ≠ i)
      let next := styleUploadStep (i + 1) rest items2
      (QEvent.startClassify i :: QEvent.doneTask i :: QEvent.cooldown 4500 :: next.1, next.2)
    | .error e =>
      let items2 := items1.map (fun t => if t.id = i then { t with error := some e } else t)
      let next := styleUploadStep (i + 1) rest items2
      (QEvent.startClassify i :: QEvent.failedTask i e :: QEvent.cooldown 4500 :: next.1, next.2)

/-- `handleStyleUpload` on a batch of files, each given by its name and the
outcome of its read+classify step, starting from an empty task list. -/
def handleStyleUpload (files : List (String × Except String String)) : List QEvent × List ClassifyingItem :=
  styleUploadStep 0 files []

/-- The tasks that remain after the batch: exactly the failed files, in
submission order, each carrying its error message. -/
def failTasks : Nat → List (String × Except String String) → List ClassifyingItem
  | _, [] => []
  | i, (nm, o) :: rest =>
    match o with
    | .ok _ => failTasks (i + 1) rest
    | .error e => { id := i, name := nm, error := some e } :: failTasks (i + 1) rest

/-! ### Video poller (`geminiService.ts`, `generateVideo`, lines 180-231) -/

structure VideoRef where
  uri : Option String
  deriving Repr, DecidableEq

structure GeneratedVideo where
  video : Option VideoRef
  deriving Repr, DecidableEq

structure VideosOpResponse where
  generatedVideos : Option (List GeneratedVideo)
  deriving Repr, DecidableEq

/-- One observed state of the long-running video operation. -/
structure VideoOperation where
  opDone : Bool
  response : Option VideosOpResponse
  deriving Repr, DecidableEq

/-- `operation.response?.generatedVideos?.[0]?.video?.uri`. -/
def downloadLinkOf (op : VideoOperation) : Option String :=
  match op.response with
  | none => none
  | some r =>
    match r.generatedVideos with
    | none => none
    | some [] => none
    | some (gv :: _) =>
      match gv.video with
      | none => none
      | some v => v.uri

/-- The `while (!operation.done)` poll loop: `polls` lists the successive
results of `ai.operations.getVideosOperation`, each preceded by the fixed
10-second delay.  Returns the first operation state reporting completion
together with the number of re-fetches consumed, or `none` when the modelled
poll budget is exhausted without completion (the source loop would still be
polling). -/
def pollLoop : VideoOperation → List VideoOperation → Option (VideoOperation × Nat)
  | op, [] => if op.opDone then some (op, 0) else none
  | op, o :: os =>
    if op.opDone then some (op, 0)
    else (pollLoop o os).map (fun p => (p.1, p.2 + 1))

def noDownloadLinkMsg : String :=
  "Video generation completed, but no download link was found."

def failedDownloadMsg (statusText : String) : String :=
  "Failed to download video: " ++ statusText

/-- Result of the `fetch` of the download link. -/
structure FetchResponse where
  ok : Bool
  statusText : String
  blobData : String
  deriving Repr, DecidableEq

/-- `generateVideo` from the submitted operation on: poll to completion, read
the download link (JavaScript truthiness: a missing or empty link throws the
no-link `Error`), fetch the payload, and return a local object URL for the
blob.  Every `Error` thrown inside the `try` is converted through
`parseGeminiError` by the `catch` and rethrown.  `none` means the poll budget
ran out with the loop still running. -/
def generateVideo (initOp : VideoOperation) (polls : List VideoOperation)
    (ftch : String → FetchResponse) (createObjectURL : String → String)
    (apiKey : String) : Option (Except String String) :=
  match pollLoop initOp polls with
  | none => none
  | some (op, _) =>
    some (match downloadLinkOf op with
      | none => .error (parseGeminiError (.error noDownloadLinkMsg))
      | some l =>
        if l = "" then .error (parseGeminiError (.error noDownloadLinkMsg))
        else
          let resp := ftch (l ++ "&key=" ++ apiKey)
          if resp.ok then .ok (createObjectURL resp.blobData)
          else .error (parseGeminiError (.error (failedDownloadMsg resp.statusText))))

/-- The terminal event of file `i`: `doneTask` on success, `failedTask` with
the caught message on failure. -/
def terminalEvent (i : Nat) (f : String × Except String String) : QEvent :=
  match f.2 with
  | .ok _ => QEvent.doneTask i
  | .error e => QEvent.failedTask i e

/-- The event trace of the upload loop in closed form: per file, in submission
order, a start event, the terminal event, then the cooldown. -/
def traceFrom : Nat → List (String × Except String String) → List QEvent
  | _, [] => []
  | i, f :: rest =>
    QEvent.startClassify i :: terminalEvent i f :: QEvent.cooldown 4500 :: traceFrom (i + 1) rest

/-! ### Sample data used by concrete witnesses and counterexamples -/

def sampleImage (nm : String) : UploadedImage :=
  { base64 := "data-" ++ nm, mimeType := "image/png", url := "url-" ++ nm, name := nm }

def sampleItem (nm : String) : FilterItem :=
  { id := "id-" ++ nm, name := nm, image := sampleImage nm }

/-- Selection with only `bottoms = [C]`: tops and outfits empty. -/
def selBottomOnly : SelectedItems :=
  { outfits := [], tops := [], bottoms := [sampleItem "C"],
    footwear := [], headwear := [], accessories := [] }

/-- Selection with two outfits and nothing else. -/
def selTwoOutfits : SelectedItems :=
  { outfits := [sampleItem "O1", sampleItem "O2"], tops := [], bottoms := [],
    footwear := [], headwear := [], accessories := [] }

/-- A generation response whose single candidate carries one inline image. -/
def respWithImage (d : String) : GenerateContentResponse :=
  { candidates := some [{ content := some { parts := [{ inlineData := some d, text := none }] } }] }

/-- A generation response whose single candidate has only a text part. -/
def respTextOnly : GenerateContentResponse :=
  { candidates := some [{ content := some { parts := [{ inlineData := none, text := some "no image" }] } }] }

/-- Service oracle: the first call returns an image, the second call throws. -/
def svcFailSecond : Nat → ServiceOutcome :=
  fun i => if i = 0 then .response (respWithImage "IMG1") else .thrown (.error "boom")

/-- Service oracle: every call returns an image named by its index. -/
def svcAllOk : Nat → ServiceOutcome :=
  fun i => .response (respWithImage ("IMG" ++ toString (i + 1)))

/-- Service oracle: every call returns the same image. -/
def svcConstOk : Nat → ServiceOutcome :=
  fun _ => .response (respWithImage "IMGX")

def sampleUrl : String → String := fun s => "blob-" ++ s

def sampleAppState : AppState :=
  { workspaceItems := [sampleImage "w0"], selectedImage := some (sampleImage "w0"),
    generatedImages := [], error := none }

def sampleVideoState : VideoState :=
  { isApiKeySelected := false, error := none, generatedVideoUrl := none,
    openSelectKeyCalled := false, videoCallMade := false }

def sampleFiles : List (String × Except String String) :=
  [("a.png", .ok "tops"), ("b.png", .error "boom"), ("c.png", .ok "bottoms")]

def opPending : VideoOperation := { opDone := false, response := none }

def opDoneNoLink : VideoOperation := { opDone := true, response := none }

def opDoneWithLink : VideoOperation :=
  { opDone := true,
    response := some { generatedVideos := some [{ video := some { uri := some "https://dl" } }] } }

def sampleFetch : String → FetchResponse :=
  fun _ => { ok := true, statusText := "OK", blobData := "VIDEO-BYTES" }

/-! ### Helper lemmas about `cartesian` -/

lemma cartesian_pair (xs ys : List α) (hx : xs ≠ []) (hy : ys ≠ []) :
    cartesian [xs, ys] = xs.flatMap (fun x => ys.map (fun y => [x, y])) := by
  have hx1 : 0 < xs.length := List.length_pos.mpr hx
  have hy1 : 0 < ys.length := List.length_pos.mpr hy
  simp [cartesian, List.filter_cons, hx1, hy1, List.flatMap_map]

lemma cartesian_pair_left_nil (ys : List α) (hy : ys ≠ []) :
    cartesian [[], ys] = ys.map (fun y => [y]) := by
  have hy1 : 0 < ys.length := List.length_pos.mpr hy
  have hy0 : ys.length ≠ 0 := by omega
  simp [cartesian, List.filter_cons, hy1, hy0]

lemma cartesian_pair_right_nil (xs : List α) (hx : xs ≠ []) :
    cartesian [xs, []] = xs.map (fun x => [x]) := by
  have hx1 : 0 < xs.length := List.length_pos.mpr hx
  have hx0 : xs.length ≠ 0 := by omega
  simp [cartesian, List.filter_cons, hx1, hx0]

lemma cartesian_pair_nil_nil : cartesian ([[], []] : List (List α)) = [[]] := by
  simp [cartesian, List.filter_cons]

lemma cartesian_foldl_mem (as : List (List α)) :
    ∀ (acc : List (List α)) (combo : List α),
      combo ∈ as.foldl (fun acc val => acc.flatMap (fun d => val.map (fun e => d ++ [e]))) acc →
      ∀ x ∈ combo, (∃ c ∈ acc, x ∈ c) ∨ ∃ arr ∈ as, x ∈ arr := by
  induction as with
  | nil =>
    intro acc combo h x hx
    exact Or.inl ⟨combo, h, hx⟩
  | cons a as ih =>
    intro acc combo h x hx
    rcases ih _ combo h x hx with hacc | harr
    · rcases hacc with ⟨c, hc, hxc⟩
      rcases List.mem_flatMap.mp hc with ⟨d, hd, hcd⟩
      rcases List.mem_map.mp hcd with ⟨e, he, hde⟩
      subst hde
      rcases List.mem_append.mp hxc with hxd | hxe
      · exact Or.inl ⟨d, hd, hxd⟩
      · have hxeq : x = e := by simpa using hxe
        subst hxeq
        exact Or.inr ⟨a, List.mem_cons_self a as, he⟩
    · rcases harr with ⟨arr, harr, hxarr⟩
      exact Or.inr ⟨arr, List.mem_cons_of_mem a harr, hxarr⟩

/-- Every element of a `cartesian` combination comes from one of the input
arrays. -/
lemma cartesian_mem (arrays : List (List α)) (combo : List α)
    (h : combo ∈ cartesian arrays) : ∀ x ∈ combo, ∃ arr ∈ arrays, x ∈ arr := by
  intro x hx
  unfold cartesian at h
  by_cases hz : (arrays.filter (fun arr => arr.length > 0)).length = 0
  · simp [hz] at h
    subst h
    simp at hx
  · simp only [hz, if_false] at h
    rcases cartesian_foldl_mem _ _ _ h x hx with hacc | harr
    · rcases hacc with ⟨c, hc, hxc⟩
      simp at hc
      subst hc
      simp at hxc
    · rcases harr with ⟨arr, harr, hxarr⟩
      exact ⟨arr, (List.mem_filter.mp harr).1, hxarr⟩

/-- Every item in an accessory combination is tagged with one of the three
accessory categories. -/
lemma accessoryCombos_mem (s : SelectedItems) (combo : List TryOnItem)
    (h : combo ∈ accessoryCombosOf s) :
    ∀ it ∈ combo, it.category = "footwear" ∨ it.category = "headwear" ∨ it.category = "accessories" := by
  intro it hit
  rcases cartesian_mem _ _ h it hit with ⟨arr, harr, hitarr⟩
  simp [accessoryCombosOf] at harr
  rcases harr with h1 | h1 | h1 <;>
    · subst h1
      rcases List.mem_map.mp hitarr with ⟨a, _, ha⟩
      subst ha
      simp [toTryOnItem]

/-! ### Helper lemmas about `tryOnLoop` and `materializeFrom` -/

lemma range_map_shift (imgs : Nat → String) (i m : Nat) :
    (List.range (m + 1)).map (fun j => imgs (i + j)) =
      imgs i :: (List.range m).map (fun j => imgs (i + 1 + j)) := by
  rw [List.range_succ_eq_map]
  simp only [List.map_cons, List.map_map, Nat.add_zero]
  refine congrArg (imgs i :: ·) (List.map_congr_left ?_)
  intro a _
  simp only [Function.comp]
  congr 1
  omega

lemma tryOnLoop_all_ok (svcE : Nat → Except String String) (imgs : Nat → String) :
    ∀ (m i : Nat) (acc : List String),
      (∀ j, j < m → svcE (i + j) = .ok (imgs (i + j)) ∧ imgs (i + j) ≠ "") →
      tryOnLoop svcE i m acc =
        (acc ++ (List.range m).map (fun j => imgs (i + j)), none, i + m) := by
  intro m
  induction m with
  | zero => intro i acc _; simp [tryOnLoop]
  | succ m ih =>
    intro i acc h
    have h0 := h 0 (Nat.succ_pos m)
    rw [Nat.add_zero] at h0
    have hrec := ih (i + 1) (acc ++ [imgs i]) (fun j hj => by
      have := h (j + 1) (Nat.succ_lt_succ hj)
      rwa [show i + (j + 1) = i + 1 + j by omega] at this)
    simp only [tryOnLoop, h0.1]
    rw [if_neg (by simpa using h0.2), hrec, range_map_shift]
    simp [List.append_assoc]
    omega

lemma tryOnLoop_fails (svcE : Nat → Except String String) (imgs : Nat → String) (e : String) :
    ∀ (m n i : Nat) (acc : List String), m < n →
      (∀ j, j < m → svcE (i + j) = .ok (imgs (i + j)) ∧ imgs (i + j) ≠ "") →
      svcE (i + m) = .error e →
      tryOnLoop svcE i n acc =
        (acc ++ (List.range m).map (fun j => imgs (i + j)), some e, i + m + 1) := by
  intro m
  induction m with
  | zero =>
    intro n i acc hn _ hfail
    obtain ⟨k, rfl⟩ : ∃ k, n = k + 1 := ⟨n - 1, by omega⟩
    rw [Nat.add_zero] at hfail
    simp [tryOnLoop, hfail]
  | succ m ih =>
    intro n i acc hn h hfail
    obtain ⟨k, rfl⟩ : ∃ k, n = k + 1 := ⟨n - 1, by omega⟩
    have h0 := h 0 (Nat.succ_pos m)
    rw [Nat.add_zero] at h0
    have hrec := ih k (i + 1) (acc ++ [imgs i]) (by omega)
      (fun j hj => by
        have := h (j + 1) (Nat.succ_lt_succ hj)
        rwa [show i + (j + 1) = i + 1 + j by omega] at this)
      (by rwa [show i + 1 + m = i + (m + 1) by omega])
    simp only [tryOnLoop, h0.1]
    rw [if_neg (by simpa using h0.2), hrec, range_map_shift]
    simp [List.append_assoc]
    omega

lemma materializeFrom_concat (mkUrl : String → String) (nm : String) :
    ∀ (rs : List String) (k : Nat) (r : String),
      materializeFrom mkUrl nm k (rs ++ [r]) =
        materializeFrom mkUrl nm k rs ++ [newWorkspaceEntry mkUrl nm (k + rs.length) r] := by
  intro rs
  induction rs with
  | nil => intro k r; simp [materializeFrom]
  | cons a as ih =>
    intro k r
    simp only [List.cons_append, materializeFrom, List.append_eq, ih, List.length_cons]
    rw [show k + (as.length + 1) = k + 1 + as.length by omega]

lemma materialize_last (mkUrl : String → String) (nm : String) (imgs : Nat → String) (m : Nat) :
    materialize mkUrl nm ((List.range (m + 1)).map imgs) =
      materialize mkUrl nm ((List.range m).map imgs) ++ [newWorkspaceEntry mkUrl nm m (imgs m)] := by
  rw [materialize, materialize, List.range_succ, List.map_append, List.map_singleton,
    materializeFrom_concat]
  simp

/-! ### Helper lemmas about the classification queue -/

lemma styleUpload_trace_eq (files : List (String × Except String String)) :
    ∀ (i : Nat) (items : List ClassifyingItem),
      (styleUploadStep i files items).1 = traceFrom i files := by
  induction files with
  | nil => intro i items; simp [styleUploadStep, traceFrom]
  | cons f rest ih =>
    intro i items
    obtain ⟨nm, o⟩ := f
    cases o with
    | ok cat => simp [styleUploadStep, traceFrom, terminalEvent, ih]
    | error e => simp [styleUploadStep, traceFrom, terminalEvent, ih]

lemma traceFrom_length (files : List (String × Except String String)) :
    ∀ i : Nat, (traceFrom i files).length = 3 * files.length := by
  induction files with
  | nil => intro i; simp [traceFrom]
  | cons f rest ih =>
    intro i
    simp [traceFrom, ih]
    omega

lemma traceFrom_get (files : List (String × Except String String)) :
    ∀ (i j : Nat) (hj : j < files.length),
      (traceFrom i files).get? (3 * j) = some (QEvent.startClassify (i + j)) ∧
      (traceFrom i files).get? (3 * j + 1) = some (terminalEvent (i + j) (files.get ⟨j, hj⟩)) ∧
      (traceFrom i files).get? (3 * j + 2) = some (QEvent.cooldown 4500) := by
  induction files with
  | nil => intro i j hj; simp at hj
  | cons f rest ih =>
    intro i j hj
    cases j with
    | zero => simp [traceFrom]
    | succ j =>
      have hj2 : j < rest.length := by simpa using hj
      have key := ih (i + 1) j hj2
      refine ⟨?_, ?_, ?_⟩
      · rw [show 3 * (j + 1) = 3 * j + 1 + 1 + 1 by omega]
        simp only [traceFrom, List.get?_cons_succ]
        rw [show i + (j + 1) = i + 1 + j by omega]
        exact key.1
      · rw [show 3 * (j + 1) + 1 = 3 * j + 1 + 1 + 1 + 1 by omega]
        simp only [traceFrom, List.get?_cons_succ, List.get_cons_succ]
        rw [show i + (j + 1) = i + 1 + j by omega]
        exact key.2.1
      · rw [show 3 * (j + 1) + 2 = 3 * j + 2 + 1 + 1 + 1 by omega]
        simp only [traceFrom, List.get?_cons_succ]
        exact key.2.2

lemma styleUpload_items (files : List (String × Except String String)) :
    ∀ (i : Nat) (items : List ClassifyingItem), (∀ t ∈ items, t.id < i) →
      (styleUploadStep i files items).2 = items ++ failTasks i files := by
  induction files with
  | nil => intro i items _; simp [styleUploadStep, failTasks]
  | cons f rest ih =>
    intro i items hlt
    obtain ⟨nm, o⟩ := f
    cases o with
    | ok cat =>
      simp only [styleUploadStep]
      have hfilter : (items ++ [({ id := i, name := nm, error := none } : ClassifyingItem)]).filter
          (fun t => t.id ≠ i) = items := by
        have h1 : items.filter (fun t => t.id ≠ i) = items := by
          apply List.filter_eq_self.mpr
          intro t ht
          simpa using Nat.ne_of_lt (hlt t ht)
        rw [List.filter_append, h1]
        simp
      rw [hfilter, ih (i + 1) items (fun t ht => Nat.lt_succ_of_lt (hlt t ht))]
      simp [failTasks]
    | error e =>
      simp only [styleUploadStep]
      have hmap : (items ++ [({ id := i, name := nm, error := none } : ClassifyingItem)]).map
          (fun t => if t.id = i then { t with error := some e } else t) =
          items ++ [({ id := i, name := nm, error := some e } : ClassifyingItem)] := by
        rw [List.map_append]
        congr 1
        · have heach : ∀ t ∈ items,
              (if t.id = i then ({ t with error := some e } : ClassifyingItem) else t) = t := by
            intro t ht
            rw [if_neg (Nat.ne_of_lt (hlt t ht))]
          rw [List.map_congr_left heach]
          simp
        · simp
      rw [hmap, ih (i + 1) _ ?hlt2]
      case hlt2 =>
        intro t ht
        rcases List.mem_append.mp ht with h1 | h1
        · exact Nat.lt_succ_of_lt (hlt t h1)
        · have : t = { id := i, name := nm, error := some e } := by simpa using h1
          subst this
          exact Nat.lt_succ_self i
      simp [failTasks]

/-! ### Helper lemmas about the video poll loop -/

lemma pollLoop_done (polls : List VideoOperation) :
    ∀ (initOp op : VideoOperation) (n : Nat),
      pollLoop initOp polls = some (op, n) → op.opDone = true := by
  induction polls with
  | nil =>
    intro initOp op n h
    by_cases hd : initOp.opDone
    · simp [pollLoop, hd] at h
      rw [← h.1]
      exact hd
    · simp [pollLoop, hd] at h
  | cons o os ih =>
    intro initOp op n h
    by_cases hd : initOp.opDone
    · simp [pollLoop, hd] at h
      rw [← h.1]
      exact hd
    · simp only [pollLoop, hd, if_false, Bool.false_eq_true] at h
      rcases Option.map_eq_some'.mp h with ⟨⟨op2, n2⟩, hp, hpe⟩
      have := ih o op2 n2 hp
      cases hpe
      exact this

lemma pollLoop_first_done :
    ∀ (pre : List VideoOperation) (initOp dOp : VideoOperation) (post : List VideoOperation),
      initOp.opDone = false → (∀ o ∈ pre, o.opDone = false) → dOp.opDone = true →
      pollLoop initOp (pre ++ dOp :: post) = some (dOp, pre.length + 1) := by
  intro pre
  induction pre with
  | nil =>
    intro initOp dOp post h0 _ hd
    cases post <;> simp [pollLoop, h0, hd]
  | cons o os ih =>
    intro initOp dOp post h0 hpre hd
    have h1 : o.opDone = false := hpre o (List.mem_cons_self _ _)
    have hrec := ih o dOp post h1 (fun x hx => hpre x (List.mem_cons_of_mem _ hx)) hd
    simp [pollLoop, h0, hrec]

lemma pollLoop_never_done :
    ∀ (polls : List VideoOperation) (initOp : VideoOperation),
      initOp.opDone = false → (∀ o ∈ polls, o.opDone = false) → pollLoop initOp polls = none := by
  intro polls
  induction polls with
  | nil => intro initOp h0 _; simp [pollLoop, h0]
  | cons o os ih =>
    intro initOp h0 hall
    simp [pollLoop, h0,
      ih o (hall o (List.mem_cons_self _ _)) (fun x hx => hall x (List.mem_cons_of_mem _ hx))]

/-! ### Helper lemmas about `handleGenerateTryOn` -/

lemma materialize_range (mkUrl : String → String) (nm : String) (imgs : Nat → String) :
    ∀ n : Nat, materialize mkUrl nm ((List.range n).map imgs) =
      (List.range n).map (fun j => newWorkspaceEntry mkUrl nm j (imgs j)) := by
  intro n
  induction n with
  | zero => rfl
  | succ m ih =>
    rw [materialize_last, ih, List.range_succ]
    simp

lemma handleGenerateTryOn_fails (svc : Nat → ServiceOutcome) (mkUrl : String → String)
    (selImg : UploadedImage) (sel : SelectedItems) (st : AppState)
    (imgs : Nat → String) (j : Nat) (errv : JsError)
    (hj : j < (generateOutfitCombinations sel).length)
    (hplace : (generateOutfitCombinations sel).flatten.any
      (fun item => item.image.base64 = "") = false)
    (hsucc : ∀ i, i < j → virtualTryOn (svc i) = .ok (imgs i) ∧ imgs i ≠ "")
    (hfail : svc j = .thrown errv) :
    handleGenerateTryOn svc mkUrl selImg sel st =
      ({ st with generatedImages := (List.range j).map imgs,
                 error := some (parseGeminiError errv) }, j + 1) := by
  have hlen : ¬ ((generateOutfitCombinations sel).length = 0) := by omega
  have hloop := tryOnLoop_fails (fun i => virtualTryOn (svc i)) imgs (parseGeminiError errv)
      j (generateOutfitCombinations sel).length 0 [] hj
      (fun k hk => by simpa using hsucc k hk)
      (by simp only [Nat.zero_add]; rw [hfail]; rfl)
  simp only [Nat.zero_add, List.nil_append] at hloop
  rw [show (fun k => imgs k) = imgs from rfl] at hloop
  simp only [handleGenerateTryOn]
  rw [if_neg hlen, if_neg (by simp [hplace]), hloop]

lemma handleGenerateTryOn_all_ok (svc : Nat → ServiceOutcome) (mkUrl : String → String)
    (selImg : UploadedImage) (sel : SelectedItems) (st : AppState)
    (imgs : Nat → String) (m : Nat)
    (hn : (generateOutfitCombinations sel).length = m + 1)
    (hplace : (generateOutfitCombinations sel).flatten.any
      (fun item => item.image.base64 = "") = false)
    (hsucc : ∀ i, i < m + 1 → virtualTryOn (svc i) = .ok (imgs i) ∧ imgs i ≠ "") :
    handleGenerateTryOn svc mkUrl selImg sel st =
      ({ st with
          generatedImages := (List.range (m + 1)).map imgs,
          error := none,
          workspaceItems :=
            (materialize mkUrl selImg.name ((List.range (m + 1)).map imgs)).reverse ++
              st.workspaceItems,
          selectedImage := some (newWorkspaceEntry mkUrl selImg.name m (imgs m)) }, m + 1) := by
  have hlen : ¬ ((generateOutfitCombinations sel).length = 0) := by omega
  have hloop := tryOnLoop_all_ok (fun i => virtualTryOn (svc i)) imgs (m + 1) 0 []
      (fun k hk => by simpa using hsucc k hk)
  simp only [Nat.zero_add, List.nil_append] at hloop
  rw [show (fun k => imgs k) = imgs from rfl] at hloop
  simp only [handleGenerateTryOn]
  rw [if_neg hlen, if_neg (by simp [hplace]), hn]
  simp only [hloop, materialize_last, List.reverse_append, List.reverse_singleton,
    List.singleton_append, List.length_map, List.length_range, gt_iff_lt, Nat.zero_lt_succ,
    if_true]

/-! ### Claim C1: fail-fast try-on batch -/

/-- C1: if in a try-on batch with `n` combinations the first `j` render calls
succeed with images `imgs 0 .. imgs (j-1)` and the `(j+1)`-th call (0-based
index `j`) throws `errv`, then exactly `j + 1` calls are made (none after the
failing one), the final generated-results buffer is exactly the `j` earlier
images in combination order, and the job's error is the thrown value's
normalized message; the workspace and selection are untouched. -/
theorem tryOn_fail_fast (svc : Nat → ServiceOutcome) (mkUrl : String → String)
    (selImg : UploadedImage) (sel : SelectedItems) (st : AppState)
    (imgs : Nat → String) (j : Nat) (errv : JsError)
    (hj : j < (generateOutfitCombinations sel).length)
    (hplace : (generateOutfitCombinations sel).flatten.any
      (fun item => item.image.base64 = "") = false)
    (hsucc : ∀ i, i < j → virtualTryOn (svc i) = .ok (imgs i) ∧ imgs i ≠ "")
    (hfail : svc j = .thrown errv) :
    handleGenerateTryOn svc mkUrl selImg sel st =
      ({ st with generatedImages := (List.range j).map imgs,
                 error := some (parseGeminiError errv) }, j + 1) :=
  handleGenerateTryOn_fails svc mkUrl selImg sel st imgs j errv hj hplace hsucc hfail

/-- Concrete instance of C1: two combinations, first render succeeds with
IMG1, second throws "boom"; the buffer keeps exactly IMG1, two calls are
made, and the reported error is the normalized (fallback) message. -/
theorem tryOn_fail_fast_witness :
    handleGenerateTryOn svcFailSecond sampleUrl (sampleImage "me") selTwoOutfits sampleAppState =
      ({ sampleAppState with
          generatedImages := ["IMG1"],
          error := some (parseGeminiError (.error "boom")) }, 2) := by
  have h := tryOn_fail_fast svcFailSecond sampleUrl (sampleImage "me") selTwoOutfits
      sampleAppState (fun _ => "IMG1") 1 (.error "boom") (by decide) (by decide)
      (fun i hi => by
        have hi0 : i = 0 := by omega
        subst hi0
        exact ⟨by rfl, by decide⟩)
      (by rfl)
  simpa using h

/-! ### Claim C4: error normalizer -/

/-- C4: `parseGeminiError` is an ordered, case-insensitive, first-match
substring scan: on every input it agrees with `normalizeSpec`, the scan over
the fixed rule list `errorRules` in source order; in particular a message
containing both "quota" and "503" normalizes to the QuotaError message (the
quota rule precedes the 503/unavailable rule), and a message containing
"requested entity was not found" in mixed letter case normalizes to the
CredentialError message, not the UnknownError fallback. -/
theorem errorNormalizer_first_match_scan :
    (∀ e : JsError, parseGeminiError e = normalizeSpec e) ∧
    parseGeminiError (.error "quota exceeded (HTTP 503)") = quotaErrorMsg ∧
    parseGeminiError (.error "Error: Requested entity was not found") = credErrorMsg := by
  refine ⟨?_, by decide, by decide⟩
  intro e
  cases e with
  | nonError => rfl
  | error msg =>
    simp [parseGeminiError, normalizeSpec, errorRules, firstMatchScan]

/-! ### Claim C2: base layer from tops and bottoms -/

/-- C2 as stated is false on the code: with `outfits = []`, `tops = []` and
`bottoms = [C]` the tops/bottoms branch still produces the base candidate
`[C]` — the `cartesian` helper drops empty input arrays instead of letting
them annihilate the product — and the engine returns that single-item
combination, not none. -/
theorem baseLayer_empty_tops_counterexample :
    baseItemsOf selBottomOnly = [[toTryOnItem (sampleItem "C") "bottoms"]] ∧
    baseItemsOf selBottomOnly ≠ [] ∧
    generateOutfitCombinations selBottomOnly = [[toTryOnItem (sampleItem "C") "bottoms"]] := by
  refine ⟨by decide, by decide, by decide⟩

/-- C2 amended: with `outfits` empty, the base candidates are the cartesian
product of tops × bottoms with empty categories dropped from the product:
top-major order when both are non-empty (tops=[A,B], bottoms=[C] yields
exactly [[A,C],[B,C]]); the singleton combinations of the non-empty side when
exactly one of the two is empty; and one single empty base candidate when
both are empty. -/
theorem baseLayer_tops_bottoms_product :
    (∀ A B C : FilterItem,
      generateOutfitCombinations
        { outfits := [], tops := [A, B], bottoms := [C],
          footwear := [], headwear := [], accessories := [] } =
        [[toTryOnItem A "tops", toTryOnItem C "bottoms"],
         [toTryOnItem B "tops", toTryOnItem C "bottoms"]]) ∧
    (∀ s : SelectedItems, s.outfits = [] → s.tops ≠ [] → s.bottoms ≠ [] →
      baseItemsOf s = s.tops.flatMap (fun t => s.bottoms.map (fun b =>
        [toTryOnItem t "tops", toTryOnItem b "bottoms"]))) ∧
    (∀ s : SelectedItems, s.outfits = [] → s.tops = [] → s.bottoms ≠ [] →
      baseItemsOf s = s.bottoms.map (fun b => [toTryOnItem b "bottoms"])) ∧
    (∀ s : SelectedItems, s.outfits = [] → s.tops ≠ [] → s.bottoms = [] →
      baseItemsOf s = s.tops.map (fun t => [toTryOnItem t "tops"])) ∧
    (∀ s : SelectedItems, s.outfits = [] → s.tops = [] → s.bottoms = [] →
      baseItemsOf s = [[]]) := by
  refine ⟨?_, ?_, ?_, ?_, ?_⟩
  · intro A B C
    rfl
  · intro s h0 ht hb
    rw [baseItemsOf, if_neg (by simp [h0])]
    rw [cartesian_pair _ _ (by simpa using ht) (by simpa using hb)]
    simp [List.flatMap_map, List.map_map, Function.comp_def]
  · intro s h0 ht hb
    rw [baseItemsOf, if_neg (by simp [h0]), ht]
    simp only [List.map_nil]
    rw [cartesian_pair_left_nil _ (by simpa using hb)]
    simp [List.map_map, Function.comp]
  · intro s h0 ht hb
    rw [baseItemsOf, if_neg (by simp [h0]), hb]
    simp only [List.map_nil]
    rw [cartesian_pair_right_nil _ (by simpa using ht)]
    simp [List.map_map, Function.comp]
  · intro s h0 ht hb
    rw [baseItemsOf, if_neg (by simp [h0]), ht, hb]
    simp only [List.map_nil]
    exact cartesian_pair_nil_nil

/-- Concrete instances of the amended C2: the [[A,C],[B,C]] product case and
the bottoms-only singleton case. -/
theorem baseLayer_tops_bottoms_product_witness :
    generateOutfitCombinations
      { outfits := [], tops := [sampleItem "A", sampleItem "B"], bottoms := [sampleItem "C"],
        footwear := [], headwear := [], accessories := [] } =
      [[toTryOnItem (sampleItem "A") "tops", toTryOnItem (sampleItem "C") "bottoms"],
       [toTryOnItem (sampleItem "B") "tops", toTryOnItem (sampleItem "C") "bottoms"]] ∧
    baseItemsOf selBottomOnly = [sampleItem "C"].map (fun b => [toTryOnItem b "bottoms"]) := by
  constructor
  · exact baseLayer_tops_bottoms_product.1 (sampleItem "A") (sampleItem "B") (sampleItem "C")
  · exact baseLayer_tops_bottoms_product.2.2.1 selBottomOnly rfl rfl (by decide)

/-! ### Claim C3: outfits exclusivity -/

/-- C3: when `outfits` is non-empty, the returned combinations are grouped by
outfit in selection order, each combination being exactly one outfit item
(tagged "outfits") consed onto an accessory combination whose items are all
tagged "footwear", "headwear" or "accessories"; in particular no combination
contains an item drawn from `tops` or `bottoms`, whatever those lists hold. -/
theorem outfits_exclusive (s : SelectedItems) (h : s.outfits ≠ []) :
    generateOutfitCombinations s =
      s.outfits.flatMap (fun o =>
        (accessoryCombosOf s).map (fun combo => toTryOnItem o "outfits" :: combo)) ∧
    (∀ combo ∈ generateOutfitCombinations s, ∃ o ∈ s.outfits, ∃ acc ∈ accessoryCombosOf s,
      combo = toTryOnItem o "outfits" :: acc ∧
      ∀ it ∈ acc, it.category = "footwear" ∨ it.category = "headwear" ∨ it.category = "accessories") ∧
    (∀ combo ∈ generateOutfitCombinations s, ∀ it ∈ combo,
      it.category ≠ "tops" ∧ it.category ≠ "bottoms") := by
  have hpos : 0 < s.outfits.length := List.length_pos.mpr h
  have hbase : baseItemsOf s = s.outfits.map (fun o => [toTryOnItem o "outfits"]) := by
    rw [baseItemsOf, if_pos hpos]
  have heq : generateOutfitCombinations s =
      s.outfits.flatMap (fun o =>
        (accessoryCombosOf s).map (fun combo => toTryOnItem o "outfits" :: combo)) := by
    simp only [generateOutfitCombinations, hbase]
    rw [if_neg (by simpa using h)]
    simp [List.flatMap_map, Function.comp_def]
  have hmem : ∀ combo ∈ generateOutfitCombinations s, ∃ o ∈ s.outfits, ∃ acc ∈ accessoryCombosOf s,
      combo = toTryOnItem o "outfits" :: acc ∧
      ∀ it ∈ acc, it.category = "footwear" ∨ it.category = "headwear" ∨ it.category = "accessories" := by
    intro combo hc
    rw [heq] at hc
    rcases List.mem_flatMap.mp hc with ⟨o, ho, hmm⟩
    rcases List.mem_map.mp hmm with ⟨acc, hacc, rfl⟩
    exact ⟨o, ho, acc, hacc, rfl, accessoryCombos_mem s acc hacc⟩
  refine ⟨heq, hmem, ?_⟩
  intro combo hc it hit
  rcases hmem combo hc with ⟨o, _, acc, _, rfl, hcat⟩
  rcases List.mem_cons.mp hit with rfl | hintail
  · constructor <;> simp [toTryOnItem]
  · rcases hcat it hintail with h1 | h1 | h1 <;> rw [h1] <;> constructor <;> simp

/-- Concrete instance of C3: two outfits, no accessories, gives exactly the
two singleton-outfit combinations in selection order. -/
theorem outfits_exclusive_witness :
    generateOutfitCombinations selTwoOutfits =
      [[toTryOnItem (sampleItem "O1") "outfits"], [toTryOnItem (sampleItem "O2") "outfits"]] := by
  have h := (outfits_exclusive selTwoOutfits (by decide)).1
  rw [h]
  rfl

/-! ### Claim C5: missing image part -/

/-- C5 as stated is false on the code: on a successful response with no inline
image part, `virtualTryOn` does throw the "model did not return an image"
`Error`, but its own `catch` block feeds that error through
`parseGeminiError`, which matches no rule, so the failure surfaced to the
caller is the UnknownError fallback — a message that does not even contain
"did not return an image". -/
theorem missingImage_surfaced_error_counterexample :
    virtualTryOn (.response respTextOnly) = .error unknownErrorMsg ∧
    editImage (.response respTextOnly) = .error unknownErrorMsg ∧
    containsSubstr unknownErrorMsg "did not return an image" = false ∧
    unknownErrorMsg ≠ noImageTryOnMsg ∧ unknownErrorMsg ≠ noImageEditMsg := by
  refine ⟨by rfl, by rfl, by decide, by decide, by decide⟩

/-- C5 amended: a successful response with no inline image part makes the
call fail — internally by throwing the "model did not return an image"
`Error` — but the failure surfaced to the caller is that error after passing
through `parseGeminiError`, which is the UnknownError fallback message. -/
theorem missingImage_is_failure (r : GenerateContentResponse)
    (hno : extractInlineImage (responseParts r) = none) :
    virtualTryOn (.response r) = .error (parseGeminiError (.error noImageTryOnMsg)) ∧
    editImage (.response r) = .error (parseGeminiError (.error noImageEditMsg)) ∧
    parseGeminiError (.error noImageTryOnMsg) = unknownErrorMsg ∧
    parseGeminiError (.error noImageEditMsg) = unknownErrorMsg := by
  refine ⟨?_, ?_, by decide, by decide⟩
  · simp [virtualTryOn, hno]
  · simp [editImage, hno]

/-- Concrete instance of the amended C5 at a text-only response. -/
theorem missingImage_is_failure_witness :
    extractInlineImage (responseParts respTextOnly) = none ∧
    virtualTryOn (.response respTextOnly) = .error (parseGeminiError (.error noImageTryOnMsg)) :=
  ⟨by decide, (missingImage_is_failure respTextOnly (by decide)).1⟩

/-! ### Claim C6: workspace materialization -/

/-- C6 as stated is false on the code: when a render fails, the thrown
exception propagates past the materialization block (`App.tsx` lines
201-218) to the `catch`, so the images already produced are NOT materialized
as workspace entries — here the loop produced IMG1 (it is in the result
buffer) yet the workspace is unchanged and no entry holds IMG1. -/
theorem workspace_materialization_counterexample :
    (handleGenerateTryOn svcFailSecond sampleUrl (sampleImage "me") selTwoOutfits
        sampleAppState).1.generatedImages = ["IMG1"] ∧
    (handleGenerateTryOn svcFailSecond sampleUrl (sampleImage "me") selTwoOutfits
        sampleAppState).1.workspaceItems = sampleAppState.workspaceItems ∧
    ∀ w ∈ (handleGenerateTryOn svcFailSecond sampleUrl (sampleImage "me") selTwoOutfits
        sampleAppState).1.workspaceItems, w.base64 ≠ "IMG1" := by
  refine ⟨by rfl, by rfl, by decide⟩

/-- C6 amended: workspace materialization happens only when the render loop
completes without error: then every image of the loop becomes a workspace
entry (its `base64` field is the service result, its URL the decoded blob's
object URL), the entry array is built in ascending combination order and the
in-place reversed array is prepended to the workspace; when a render throws,
the earlier partial results remain in the generated-results buffer but no
workspace entry is created. -/
theorem workspace_materialization_amended (svc : Nat → ServiceOutcome)
    (mkUrl : String → String) (selImg : UploadedImage) (sel : SelectedItems)
    (st : AppState) (imgs : Nat → String) :
    (∀ m, (generateOutfitCombinations sel).length = m + 1 →
      (generateOutfitCombinations sel).flatten.any
        (fun item => item.image.base64 = "") = false →
      (∀ i, i < m + 1 → virtualTryOn (svc i) = .ok (imgs i) ∧ imgs i ≠ "") →
      (handleGenerateTryOn svc mkUrl selImg sel st).1.workspaceItems =
        ((List.range (m + 1)).map
          (fun j => newWorkspaceEntry mkUrl selImg.name j (imgs j))).reverse ++
          st.workspaceItems) ∧
    (∀ j errv, j < (generateOutfitCombinations sel).length →
      (generateOutfitCombinations sel).flatten.any
        (fun item => item.image.base64 = "") = false →
      (∀ i, i < j → virtualTryOn (svc i) = .ok (imgs i) ∧ imgs i ≠ "") →
      svc j = .thrown errv →
      (handleGenerateTryOn svc mkUrl selImg sel st).1.generatedImages =
        (List.range j).map imgs ∧
      (handleGenerateTryOn svc mkUrl selImg sel st).1.workspaceItems =
        st.workspaceItems) := by
  constructor
  · intro m hn hplace hsucc
    rw [handleGenerateTryOn_all_ok svc mkUrl selImg sel st imgs m hn hplace hsucc]
    rw [materialize_range]
  · intro j errv hj hplace hsucc hfail
    rw [handleGenerateTryOn_fails svc mkUrl selImg sel st imgs j errv hj hplace hsucc hfail]
    exact ⟨rfl, rfl⟩

/-- Concrete instances of the amended C6: a fully successful 2-render batch
prepends the reversed entry block; a failed second render leaves the
workspace untouched. -/
theorem workspace_materialization_amended_witness :
    (handleGenerateTryOn svcConstOk sampleUrl (sampleImage "me") selTwoOutfits
        sampleAppState).1.workspaceItems =
      ((List.range 2).map
        (fun j => newWorkspaceEntry sampleUrl "me" j "IMGX")).reverse ++
        sampleAppState.workspaceItems ∧
    (handleGenerateTryOn svcFailSecond sampleUrl (sampleImage "me") selTwoOutfits
        sampleAppState).1.workspaceItems = sampleAppState.workspaceItems := by
  constructor
  · have h := (workspace_materialization_amended svcConstOk sampleUrl (sampleImage "me")
        selTwoOutfits sampleAppState (fun _ => "IMGX")).1 1 (by decide) (by decide)
        (fun i hi => ⟨rfl, by show "IMGX" ≠ ""; decide⟩)
    simpa using h
  · have h := (workspace_materialization_amended svcFailSecond sampleUrl (sampleImage "me")
        selTwoOutfits sampleAppState (fun _ => "IMG1")).2 1 (.error "boom") (by decide)
        (by decide)
        (fun i hi => by
          have hi0 : i = 0 := by omega
          subst hi0
          exact ⟨by rfl, by decide⟩)
        (by rfl)
    exact h.2

/-! ### Claim C10: reverse insertion and selection -/

/-- C10: after a fully successful batch of `m + 1` renders, the new workspace
entries are built in ascending combination order, the block prepended to the
workspace is that array reversed in place (the last combination's entry
first), and the selected image becomes the last combination's entry — the
first element of the reversed array. -/
theorem tryOn_success_reverse_selection (svc : Nat → ServiceOutcome)
    (mkUrl : String → String) (selImg : UploadedImage) (sel : SelectedItems)
    (st : AppState) (imgs : Nat → String) (m : Nat)
    (hn : (generateOutfitCombinations sel).length = m + 1)
    (hplace : (generateOutfitCombinations sel).flatten.any
      (fun item => item.image.base64 = "") = false)
    (hsucc : ∀ i, i < m + 1 → virtualTryOn (svc i) = .ok (imgs i) ∧ imgs i ≠ "") :
    materialize mkUrl selImg.name ((List.range (m + 1)).map imgs) =
      (List.range (m + 1)).map (fun j => newWorkspaceEntry mkUrl selImg.name j (imgs j)) ∧
    (handleGenerateTryOn svc mkUrl selImg sel st).1.workspaceItems =
      (materialize mkUrl selImg.name ((List.range (m + 1)).map imgs)).reverse ++
        st.workspaceItems ∧
    (handleGenerateTryOn svc mkUrl selImg sel st).1.selectedImage =
      some (newWorkspaceEntry mkUrl selImg.name m (imgs m)) := by
  refine ⟨materialize_range mkUrl selImg.name imgs (m + 1), ?_, ?_⟩ <;>
    rw [handleGenerateTryOn_all_ok svc mkUrl selImg sel st imgs m hn hplace hsucc]

/-- Concrete instance of C10: two successful renders; the selected image is
the second (last) combination's entry. -/
theorem tryOn_success_reverse_selection_witness :
    (handleGenerateTryOn svcConstOk sampleUrl (sampleImage "me") selTwoOutfits
        sampleAppState).1.selectedImage =
      some (newWorkspaceEntry sampleUrl "me" 1 "IMGX") := by
  have h := (tryOn_success_reverse_selection svcConstOk sampleUrl (sampleImage "me")
      selTwoOutfits sampleAppState (fun _ => "IMGX") 1 (by decide) (by decide)
      (fun i hi => ⟨rfl, by show "IMGX" ≠ ""; decide⟩)).2.2
  simpa using h

/-! ### Claim C7: video credential gate -/

/-- C7: with a non-empty prompt and no credential, the video branch triggers
the external credential-selection flow, optimistically sets the availability
flag, fails with the "try again" instruction, and makes no video call; and a
video call failing with a message containing "API Key not found" — as the
normalized CredentialError message does — resets the flag to false. -/
theorem video_credential_gate :
    (∀ (prompt : String) (vres : Except String String) (st : VideoState),
      jsTrim prompt ≠ "" →
      handleGenerateVideoBranch prompt false vres st =
        { st with
            isApiKeySelected := true,
            error := some keySelectedRetryMsg,
            generatedVideoUrl := none,
            openSelectKeyCalled := true,
            videoCallMade := false }) ∧
    containsSubstr keySelectedRetryMsg "again" = true ∧
    (∀ (prompt m : String) (st : VideoState),
      jsTrim prompt ≠ "" → containsSubstr m "API Key not found" = true →
      handleGenerateVideoBranch prompt true (.error m) st =
        { st with
            isApiKeySelected := false,
            error := some m,
            generatedVideoUrl := none,
            openSelectKeyCalled := false,
            videoCallMade := true }) ∧
    containsSubstr credErrorMsg "API Key not found" = true := by
  refine ⟨?_, by decide, ?_, by decide⟩
  · intro prompt vres st hp
    simp [handleGenerateVideoBranch, hp]
  · intro prompt m st hp hm
    simp [handleGenerateVideoBranch, hp, hm]

/-- Concrete instances of C7: the no-credential path aborts before any video
call and flips the flag on; a call failing with the CredentialError message
flips the flag back off. -/
theorem video_credential_gate_witness :
    handleGenerateVideoBranch "walk the runway" false (.ok "never-used") sampleVideoState =
      { sampleVideoState with
          isApiKeySelected := true,
          error := some keySelectedRetryMsg,
          generatedVideoUrl := none,
          openSelectKeyCalled := true,
          videoCallMade := false } ∧
    handleGenerateVideoBranch "walk the runway" true (.error credErrorMsg)
        { sampleVideoState with isApiKeySelected := true } =
      { sampleVideoState with
          isApiKeySelected := false,
          error := some credErrorMsg,
          generatedVideoUrl := none,
          openSelectKeyCalled := false,
          videoCallMade := true } := by
  constructor
  · exact video_credential_gate.1 "walk the runway" (.ok "never-used") sampleVideoState
      (by decide)
  · exact video_credential_gate.2.2.1 "walk the runway" credErrorMsg
      { sampleVideoState with isApiKeySelected := true } (by decide) (by decide)

/-! ### Claim C8: classification queue sequencing and isolation -/

/-- C8: the upload batch is processed strictly sequentially in submission
order: the trace consists, for each file `j` in order, of the block
(request start at position 3j, terminal state at 3j+1, cooldown at 3j+2), so
file `j`'s request starts only after file `j-1`'s terminal state and the
following cooldown; every submitted file gets a start and a terminal event
whatever the other files' outcomes (a failure never aborts the batch); and
the final task list is exactly the failed files, each retaining its error
message. -/
theorem classification_queue_sequencing (files : List (String × Except String String)) :
    (∀ (j : Nat) (hj : j < files.length),
      (handleStyleUpload files).1.get? (3 * j) = some (QEvent.startClassify j) ∧
      (handleStyleUpload files).1.get? (3 * j + 1) =
        some (terminalEvent j (files.get ⟨j, hj⟩)) ∧
      (handleStyleUpload files).1.get? (3 * j + 2) = some (QEvent.cooldown 4500)) ∧
    (handleStyleUpload files).1.length = 3 * files.length ∧
    (handleStyleUpload files).2 = failTasks 0 files := by
  refine ⟨?_, ?_, ?_⟩
  · intro j hj
    have h := traceFrom_get files 0 j hj
    rw [handleStyleUpload, styleUpload_trace_eq files 0 []]
    simpa using h
  · rw [handleStyleUpload, styleUpload_trace_eq files 0 []]
    exact traceFrom_length files 0
  · rw [handleStyleUpload, styleUpload_items files 0 [] (by simp)]
    simp

/-- Concrete instance of C8 on a three-file batch whose middle file fails:
the second file's block sits entirely between the first and third blocks, and
only the failed file's task remains, carrying its message. -/
theorem classification_queue_sequencing_witness :
    (handleStyleUpload sampleFiles).1.get? 3 = some (QEvent.startClassify 1) ∧
    (handleStyleUpload sampleFiles).1.get? 4 = some (QEvent.failedTask 1 "boom") ∧
    (handleStyleUpload sampleFiles).1.get? 6 = some (QEvent.startClassify 2) ∧
    (handleStyleUpload sampleFiles).2 = [{ id := 1, name := "b.png", error := some "boom" }] := by
  have h1 := (classification_queue_sequencing sampleFiles).1 1 (by decide)
  have h2 := (classification_queue_sequencing sampleFiles).1 2 (by decide)
  have h3 := (classification_queue_sequencing sampleFiles).2.2
  refine ⟨?_, ?_, ?_, ?_⟩
  · simpa using h1.1
  · simpa using h1.2.1
  · simpa using h2.1
  · rw [h3]
    rfl

/-! ### Claim C9: video poller completion contract -/

/-- C9: the poll loop re-fetches the operation until one reports completion
(each re-fetch preceded by the fixed delay in the source): the returned
operation is always done, the first done operation is returned after exactly
as many re-fetches as there are earlier pending states, and with only pending
states the loop is still running at the end of the modelled poll budget.  On
completion: a missing download link is a terminal failure (the "completed but
no download link" error, surfaced through the normalizer), and a present link
is fetched and turned into a local object URL for the payload blob. -/
theorem video_poller_contract (initOp : VideoOperation) (polls : List VideoOperation)
    (ftch : String → FetchResponse) (mkUrl : String → String) (key : String) :
    (∀ (op : VideoOperation) (n : Nat),
      pollLoop initOp polls = some (op, n) → op.opDone = true) ∧
    (∀ (pre : List VideoOperation) (dOp : VideoOperation) (post : List VideoOperation),
      initOp.opDone = false → (∀ o ∈ pre, o.opDone = false) → dOp.opDone = true →
      polls = pre ++ dOp :: post →
      pollLoop initOp polls = some (dOp, pre.length + 1)) ∧
    (initOp.opDone = false → (∀ o ∈ polls, o.opDone = false) →
      generateVideo initOp polls ftch mkUrl key = none) ∧
    (∀ (op : VideoOperation) (n : Nat),
      pollLoop initOp polls = some (op, n) → downloadLinkOf op = none →
      generateVideo initOp polls ftch mkUrl key =
        some (.error (parseGeminiError (.error noDownloadLinkMsg)))) ∧
    (∀ (op : VideoOperation) (n : Nat) (l : String),
      pollLoop initOp polls = some (op, n) → downloadLinkOf op = some l → l ≠ "" →
      (ftch (l ++ "&key=" ++ key)).ok = true →
      generateVideo initOp polls ftch mkUrl key =
        some (.ok (mkUrl (ftch (l ++ "&key=" ++ key)).blobData))) := by
  refine ⟨?_, ?_, ?_, ?_, ?_⟩
  · intro op n h
    exact pollLoop_done polls initOp op n h
  · intro pre dOp post h0 hpre hd hsplit
    rw [hsplit]
    exact pollLoop_first_done pre initOp dOp post h0 hpre hd
  · intro h0 hall
    rw [generateVideo, pollLoop_never_done polls initOp h0 hall]
  · intro op n h hno
    rw [generateVideo, h]
    simp [hno]
  · intro op n l h hlink hne hok
    rw [generateVideo, h]
    simp [hlink, hne, hok]

/-- Concrete instance of C9: one pending re-fetch then a completed operation
with a link; the loop stops at the done operation after two re-fetches and
the call returns the object URL of the fetched blob; on a completed
operation with no link the call fails. -/
theorem video_poller_contract_witness :
    pollLoop opPending [opPending, opDoneWithLink] = some (opDoneWithLink, 2) ∧
    generateVideo opPending [opPending, opDoneWithLink] sampleFetch
      (fun s => "objurl-" ++ s) "K" = some (.ok "objurl-VIDEO-BYTES") ∧
    generateVideo opDoneNoLink [] sampleFetch (fun s => "objurl-" ++ s) "K" =
      some (.error (parseGeminiError (.error noDownloadLinkMsg))) := by
  refine ⟨?_, ?_, ?_⟩
  · exact (video_poller_contract opPending [opPending, opDoneWithLink] sampleFetch
      (fun s => "objurl-" ++ s) "K").2.1 [opPending] opDoneWithLink [] (by decide)
      (by decide) (by decide) (by rfl)
  · have h := (video_poller_contract opPending [opPending, opDoneWithLink] sampleFetch
      (fun s => "objurl-" ++ s) "K").2.2.2.2 opDoneWithLink 2 "https://dl" (by rfl)
      (by rfl) (by decide) (by rfl)
    simpa using h
  · exact (video_poller_contract opDoneNoLink [] sampleFetch
      (fun s => "objurl-" ++ s) "K").2.2.2.1 opDoneNoLink 0 (by rfl) (by rfl)

end DressTryOn
